import Mathlib

/-!
Verification of the RA8875 driver's touch-panel calibration/filtering pipeline
(`RA8875_Touch.cpp`) and GIF decoder (`GraphicsDisplayGIF.cpp`) against their
natural-language specification.

The C code is shallowly embedded: machine `int` arithmetic is modelled by `Int`
(the source documents a ≤10-bit digitizer operating range under which the
32-bit integer operations do not overflow), C's signed division `/` (which
truncates toward zero) is modelled by `Int.tdiv`, and the touch/GIF state that
the member functions mutate is passed explicitly.
-/

/- ==================== DisplayDefs.h data model ==================== -/

/-- `RetCode_t` from DisplayDefs.h (the enumerators used by the touch code). -/
inductive RetCode_t where
  | noerror
  | bad_parameter
  | file_not_found
  | not_supported_format
  | not_enough_ram
  | touch_cal_timeout
  | external_abort
deriving DecidableEq, Repr

/-- `TouchCode_t` from DisplayDefs.h. -/
inductive TouchCode_t where
  | no_touch
  | touch
  | held
  | release
  | no_cal
deriving DecidableEq, Repr

/-- `point_t` from DisplayDefs.h: a pair of `loc_t` (`int16_t`) coordinates.
Coordinates are modelled as mathematical integers; the source documents a
≤10-bit digitizer and on-screen display coordinates, under which the values
fit the machine types. -/
structure point_t where
  x : Int
  y : Int
deriving DecidableEq, Repr

/-- `tpMatrix_t` from DisplayDefs.h: seven signed 32-bit calibration factors. -/
structure tpMatrix_t where
  An : Int
  Bn : Int
  Cn : Int
  Dn : Int
  En : Int
  Fn : Int
  Divider : Int
deriving DecidableEq, Repr

/-- `touchInfo_T` from RA8875.h: per-channel touch information. -/
structure touchInfo_T where
  touchID : Nat
  touchCode : TouchCode_t
  coordinates : point_t
deriving DecidableEq, Repr

/-- `WhichTP_T` from RA8875.h: which touch panel is selected. -/
inductive WhichTP_T where
  | TP_NONE
  | TP_RES
  | TP_FT5206
  | TP_GSL1680
deriving DecidableEq, Repr

/- ==================== RA8875_Touch.cpp: calibration solver ==================== -/

/-- The `Divider` determinant computed first by `TouchPanelComputeCalibration`
(RA8875_Touch.cpp lines 705-706). -/
def computeDivider (s0 s1 s2 : point_t) : Int :=
  (s0.x - s2.x) * (s1.y - s2.y) - (s1.x - s2.x) * (s0.y - s2.y)

/-- `TouchPanelComputeCalibration` (RA8875_Touch.cpp lines 701-735).
Inputs: the three display points `d0 d1 d2`, the three raw screen sample
points `s0 s1 s2`, and the member state it mutates: the stored matrix
`tpMatrix` and `touchState`.  Output: the returned `RetCode_t`, the new
stored `tpMatrix`, and the new `touchState`.  Mirrors the source exactly:
`tpMatrix.Divider` is assigned the determinant *before* the zero test, so on
failure only `Divider` has been overwritten and `An..Fn` and `touchState`
keep their previous values. -/
def TouchPanelComputeCalibration (d0 d1 d2 s0 s1 s2 : point_t)
    (tpMatrix : tpMatrix_t) (touchState : TouchCode_t) :
    RetCode_t × tpMatrix_t × TouchCode_t :=
  let divider := (s0.x - s2.x) * (s1.y - s2.y) - (s1.x - s2.x) * (s0.y - s2.y)
  if divider = 0 then
    (RetCode_t.bad_parameter, { tpMatrix with Divider := divider }, touchState)
  else
    (RetCode_t.noerror,
     { An := (d0.x - d2.x) * (s1.y - s2.y) - (d1.x - d2.x) * (s0.y - s2.y)
       Bn := (s0.x - s2.x) * (d1.x - d2.x) - (d0.x - d2.x) * (s1.x - s2.x)
       Cn := (s2.x * d1.x - s1.x * d2.x) * s0.y +
             (s0.x * d2.x - s2.x * d0.x) * s1.y +
             (s1.x * d0.x - s0.x * d1.x) * s2.y
       Dn := (d0.y - d2.y) * (s1.y - s2.y) - (d1.y - d2.y) * (s0.y - s2.y)
       En := (s0.x - s2.x) * (d1.y - d2.y) - (d0.y - d2.y) * (s1.x - s2.x)
       Fn := (s2.x * d1.y - s1.x * d2.y) * s0.y +
             (s0.x * d2.y - s2.x * d0.y) * s1.y +
             (s1.x * d0.y - s0.x * d1.y) * s2.y
       Divider := divider },
     TouchCode_t.no_touch)

/-- The affine application performed by `TouchPanelReadable`
(RA8875_Touch.cpp lines 318-323): `Xd = (An*x + Bn*y + Cn) / Divider`,
`Yd = (Dn*x + En*y + Fn) / Divider`, with C's signed `/` (truncation toward
zero), modelled by `Int.tdiv`. -/
def getDisplayPoint (m : tpMatrix_t) (a2dX a2dY : Int) : point_t :=
  { x := Int.tdiv (m.An * a2dX + m.Bn * a2dY + m.Cn) m.Divider
    y := Int.tdiv (m.Dn * a2dX + m.En * a2dY + m.Fn) m.Divider }

/-- `TouchPanelReadable` (RA8875_Touch.cpp lines 295-346), resistive (`TP_RES`)
path.  Inputs: the stored matrix, the previous `touchInfo[0]`, the result of
`TouchPanelA2DFiltered` (its code and the two filtered samples), and whether
the caller passed a non-NULL `TouchPoint` (`wantPoint`).  Output: the returned
`TouchCode_t`, the new `touchInfo[0]`, and the delivered point (if any).
`panelTouched` enters false (it is cleared before every return and only the
branch below sets it), so the final `if (panelTouched)` block fires exactly
when the filtered code was not `no_touch`. -/
def TouchPanelReadable (tp : tpMatrix_t) (info0 : touchInfo_T)
    (filtered : TouchCode_t) (a2dX a2dY : Int) (wantPoint : Bool) :
    TouchCode_t × touchInfo_T × Option point_t :=
  let ts := filtered
  let info := { info0 with touchID := 0 }
  if ts ≠ TouchCode_t.no_touch then
    let step :=
      if tp.Divider ≠ 0 then
        ({ info with coordinates := getDisplayPoint tp a2dX a2dY }, ts)
      else
        (info, TouchCode_t.no_cal)
    let info2 := { step.1 with touchCode := step.2 }
    if wantPoint then
      (info2.touchCode, info2, some info2.coordinates)
    else
      (TouchCode_t.touch, info2, none)
  else
    let info2 := { info with touchCode := ts }
    (ts, info2, none)

/- ==================== RA8875_Touch.cpp: channel accessors ==================== -/

/-- `TouchChannels` (RA8875_Touch.cpp lines 134-145).  `GSL1680_TOUCH_POINTS`
comes from a firmware header outside this excerpt, so it is a parameter. -/
def TouchChannels (useTouchPanel : WhichTP_T) (gslTouchPoints : Nat) : Nat :=
  match useTouchPanel with
  | WhichTP_T.TP_GSL1680 => gslTouchPoints
  | WhichTP_T.TP_FT5206 => 5
  | WhichTP_T.TP_RES => 1
  | WhichTP_T.TP_NONE => 0

/-- The channel clamping shared by `TouchID`, `TouchCode`, `TouchCoordinates`
(RA8875_Touch.cpp lines 348-367): `if (channel >= TouchChannels()) channel = 0`. -/
def clampChannel (useTouchPanel : WhichTP_T) (gslTouchPoints : Nat) (channel : Nat) : Nat :=
  if channel ≥ TouchChannels useTouchPanel gslTouchPoints then 0 else channel

/-- `TouchID` (RA8875_Touch.cpp lines 348-353); `touchInfo` is the
constructor-allocated per-channel array, modelled as a total map. -/
def TouchID (touchInfo : Nat → touchInfo_T) (useTouchPanel : WhichTP_T)
    (gslTouchPoints : Nat) (channel : Nat) : Nat :=
  (touchInfo (clampChannel useTouchPanel gslTouchPoints channel)).touchID

/-- `TouchCode` (RA8875_Touch.cpp lines 355-360). -/
def TouchCode (touchInfo : Nat → touchInfo_T) (useTouchPanel : WhichTP_T)
    (gslTouchPoints : Nat) (channel : Nat) : TouchCode_t :=
  (touchInfo (clampChannel useTouchPanel gslTouchPoints channel)).touchCode

/-- `TouchCoordinates` (RA8875_Touch.cpp lines 362-367). -/
def TouchCoordinates (touchInfo : Nat → touchInfo_T) (useTouchPanel : WhichTP_T)
    (gslTouchPoints : Nat) (channel : Nat) : point_t :=
  (touchInfo (clampChannel useTouchPanel gslTouchPoints channel)).coordinates

/- ==================== RA8875_Touch.cpp: ticker ==================== -/

/-- The member state read and written by `_TouchTicker`:
`touchSample`, `touchState`, and the `timeSinceTouch` timer (µs). -/
structure ResTouchState where
  touchSample : Nat
  touchState : TouchCode_t
  timeSinceTouch_us : Nat
deriving DecidableEq, Repr

/-- `_TouchTicker` (RA8875_Touch.cpp lines 421-432), fired every
`TOUCH_TICKER_uS` = 1000 µs: when the time since the last touch exceeds
`NOTOUCH_TIMEOUT_uS` = 100000 µs it clears the sample counter, moves
`held` to `release` and anything else to `no_touch`, and resets the timer;
otherwise it changes nothing. -/
def _TouchTicker (s : ResTouchState) : ResTouchState :=
  if s.timeSinceTouch_us > 100000 then
    { touchSample := 0
      touchState :=
        if s.touchState = TouchCode_t.held then TouchCode_t.release
        else TouchCode_t.no_touch
      timeSinceTouch_us := 0 }
  else s

/- ==================== RA8875_Touch.cpp: sample filter ==================== -/

/-- One insertion step of the `InsertionSort` helper
(RA8875_Touch.cpp lines 404-418): the element `x` is shifted left past every
larger element of the (already sorted) prefix, i.e. it is inserted after the
last element `≤ x`. -/
def insertSorted (x : Int) : List Int → List Int
  | [] => [x]
  | y :: ys => if y ≤ x then y :: insertSorted x ys else x :: y :: ys

/-- `InsertionSort` (RA8875_Touch.cpp lines 404-418): each `buf[i]` in turn is
inserted into the sorted prefix before it. -/
def InsertionSort (buf : List Int) : List Int :=
  buf.foldl (fun acc x => insertSorted x acc) []

/-- The buffer-full branch of `TouchPanelA2DFiltered`
(RA8875_Touch.cpp lines 465-513) with `TPBUFSIZE` = 16: both 16-sample
buffers are insertion-sorted, the sorted indices
`[TPBUFSIZE/4 - 1, TPBUFSIZE - TPBUFSIZE/4)` = `[3, 12)` are summed, and the
reported coordinate is `j * (float)2 / TPBUFSIZE` assigned to an `int`.
For these magnitudes the float product and the division by the power of two
are exact, and the float-to-int conversion truncates toward zero, so the
assigned value is exactly `Int.tdiv (j * 2) 16`.  The touch state advances
`touch`/`held` to `held` and anything else to `touch`; the sample counter is
reset to 0. -/
def a2dFilteredComplete (xbuf ybuf : List Int) (touchState : TouchCode_t) :
    (Int × Int) × TouchCode_t × Nat :=
  let ysorted := InsertionSort ybuf
  let xsorted := InsertionSort xbuf
  let jy := ((ysorted.drop (16 / 4 - 1)).take ((16 - 16 / 4) - (16 / 4 - 1))).sum
  let jx := ((xsorted.drop (16 / 4 - 1)).take ((16 - 16 / 4) - (16 / 4 - 1))).sum
  let y := Int.tdiv (jy * 2) 16
  let x := Int.tdiv (jx * 2) 16
  let touchState' :=
    if touchState = TouchCode_t.touch ∨ touchState = TouchCode_t.held then
      TouchCode_t.held
    else TouchCode_t.touch
  ((x, y), touchState', 0)

/- ==================== Sorting lemmas for the sample filter ==================== -/

/-- `insertSorted` inserts its element: the result is a permutation of
`x :: l`. -/
theorem insertSorted_perm (x : Int) (l : List Int) :
    (insertSorted x l).Perm (x :: l) := by
  induction l with
  | nil => simp [insertSorted]
  | cons y ys ih =>
    simp only [insertSorted]
    split
    · exact (ih.cons y).trans (List.Perm.swap x y ys)
    · exact List.Perm.refl _

/-- `insertSorted` preserves ascending sortedness. -/
theorem insertSorted_sorted (x : Int) (l : List Int)
    (h : l.Sorted (· ≤ ·)) : (insertSorted x l).Sorted (· ≤ ·) := by
  induction l with
  | nil => simp [insertSorted]
  | cons y ys ih =>
    rw [List.sorted_cons] at h
    simp only [insertSorted]
    split
    · rename_i hyx
      rw [List.sorted_cons]
      refine ⟨fun b hb => ?_, ih h.2⟩
      have hb' : b ∈ x :: ys := (insertSorted_perm x ys).mem_iff.mp hb
      rcases List.mem_cons.mp hb' with rfl | hb''
      · exact hyx
      · exact h.1 b hb''
    · rename_i hyx
      rw [List.sorted_cons]
      refine ⟨fun b hb => ?_, List.sorted_cons.mpr h⟩
      rcases List.mem_cons.mp hb with rfl | hb''
      · exact le_of_lt (lt_of_not_le hyx)
      · exact le_trans (le_of_lt (lt_of_not_le hyx)) (h.1 b hb'')

theorem foldl_insertSorted_perm (l acc : List Int) :
    (l.foldl (fun a x => insertSorted x a) acc).Perm (acc ++ l) := by
  induction l generalizing acc with
  | nil => simp
  | cons x xs ih =>
    simp only [List.foldl_cons]
    refine (ih (insertSorted x acc)).trans ?_
    refine ((insertSorted_perm x acc).append_right xs).trans ?_
    simpa using List.perm_middle.symm

/-- `InsertionSort` returns a permutation of its input. -/
theorem InsertionSort_perm (buf : List Int) : (InsertionSort buf).Perm buf := by
  simpa using foldl_insertSorted_perm buf []

theorem foldl_insertSorted_sorted (l acc : List Int)
    (h : acc.Sorted (· ≤ ·)) :
    (l.foldl (fun a x => insertSorted x a) acc).Sorted (· ≤ ·) := by
  induction l generalizing acc with
  | nil => simpa using h
  | cons x xs ih => exact ih _ (insertSorted_sorted x acc h)

/-- `InsertionSort` sorts ascending. -/
theorem InsertionSort_sorted (buf : List Int) :
    (InsertionSort buf).Sorted (· ≤ ·) := by
  exact foldl_insertSorted_sorted buf [] (by simp)

/-- `j * 2` truncated-divided by 16 is `j` truncated-divided by 8 (the
float arithmetic `j * (float)2 / TPBUFSIZE` in the source is exact and its
int conversion truncates toward zero). -/
theorem mul_two_tdiv_sixteen (j : Int) : Int.tdiv (j * 2) 16 = Int.tdiv j 8 := by
  obtain ⟨n, rfl | rfl⟩ := Int.eq_nat_or_neg j
  · rw [Int.tdiv_eq_ediv (by positivity) (by norm_num),
      Int.tdiv_eq_ediv (Int.natCast_nonneg n) (by norm_num)]
    omega
  · rw [Int.neg_mul, Int.neg_tdiv, Int.neg_tdiv,
      Int.tdiv_eq_ediv (by positivity) (by norm_num),
      Int.tdiv_eq_ediv (Int.natCast_nonneg n) (by norm_num)]
    omega

/- ==================== Claim theorems: touch subsystem ==================== -/

/-- C2 counterexample: with a previously stored matrix whose `Divider` is 7
and collinear raw sample points (0,0),(1,1),(2,2), the failed calibration
does NOT leave all seven stored fields unchanged: `Divider` is overwritten
with the freshly computed 0. -/
theorem C2_counterexample :
    (TouchPanelComputeCalibration ⟨0, 0⟩ ⟨10, 10⟩ ⟨20, 20⟩ ⟨0, 0⟩ ⟨1, 1⟩ ⟨2, 2⟩
        ⟨1, 2, 3, 4, 5, 6, 7⟩ TouchCode_t.held).1 = RetCode_t.bad_parameter ∧
    (TouchPanelComputeCalibration ⟨0, 0⟩ ⟨10, 10⟩ ⟨20, 20⟩ ⟨0, 0⟩ ⟨1, 1⟩ ⟨2, 2⟩
        ⟨1, 2, 3, 4, 5, 6, 7⟩ TouchCode_t.held).2.1 ≠ ⟨1, 2, 3, 4, 5, 6, 7⟩ := by
  decide

/-- C2 (amended): for collinear calibration points
`TouchPanelComputeCalibration` returns `bad_parameter`, leaves `An..Fn` and
the touch state unchanged, but overwrites the stored `Divider` with the
computed 0 (and does not write the caller's output matrix). -/
theorem C2_amended_divider_overwritten (d0 d1 d2 s0 s1 s2 : point_t)
    (tp : tpMatrix_t) (ts : TouchCode_t) (h : computeDivider s0 s1 s2 = 0) :
    TouchPanelComputeCalibration d0 d1 d2 s0 s1 s2 tp ts =
      (RetCode_t.bad_parameter, { tp with Divider := 0 }, ts) := by
  simp only [computeDivider] at h
  simp [TouchPanelComputeCalibration, h]

/-- C2 witness: the amended theorem evaluated at the counterexample input. -/
theorem C2_witness :
    TouchPanelComputeCalibration ⟨0, 0⟩ ⟨10, 10⟩ ⟨20, 20⟩ ⟨0, 0⟩ ⟨1, 1⟩ ⟨2, 2⟩
        ⟨1, 2, 3, 4, 5, 6, 7⟩ TouchCode_t.held =
      (RetCode_t.bad_parameter, ⟨1, 2, 3, 4, 5, 6, 0⟩, TouchCode_t.held) :=
  C2_amended_divider_overwritten _ _ _ _ _ _ _ _ (by decide)

/-- C4: when a filtered sample is delivered (`filtered ≠ no_touch`) and the
stored matrix has `Divider = 0`, `TouchPanelReadable` reports `no_cal` and
performs no affine division (the stored coordinates stay what they were);
with `Divider ≠ 0` it computes the display point as
`Xd = (An*x + Bn*y + Cn) / Divider`, `Yd = (Dn*x + En*y + Fn) / Divider`
with C's truncating signed division (`Int.tdiv`). -/
theorem C4_divider_zero_no_cal (tp : tpMatrix_t) (info0 : touchInfo_T)
    (filtered : TouchCode_t) (a2dX a2dY : Int)
    (h : filtered ≠ TouchCode_t.no_touch) :
    (tp.Divider = 0 →
      (TouchPanelReadable tp info0 filtered a2dX a2dY true).1 = TouchCode_t.no_cal ∧
      (TouchPanelReadable tp info0 filtered a2dX a2dY true).2.1.coordinates =
        info0.coordinates) ∧
    (tp.Divider ≠ 0 →
      (TouchPanelReadable tp info0 filtered a2dX a2dY true).1 = filtered ∧
      (TouchPanelReadable tp info0 filtered a2dX a2dY true).2.1.coordinates =
        { x := Int.tdiv (tp.An * a2dX + tp.Bn * a2dY + tp.Cn) tp.Divider
          y := Int.tdiv (tp.Dn * a2dX + tp.En * a2dY + tp.Fn) tp.Divider }) := by
  constructor
  · intro h0
    simp [TouchPanelReadable, h, h0]
  · intro h0
    simp [TouchPanelReadable, getDisplayPoint, h, h0]

/-- C4 witness: an uncalibrated matrix (`Divider = 0`) with a delivered
sample reports `no_cal` and leaves the stored coordinates untouched. -/
theorem C4_witness :
    (TouchPanelReadable ⟨1, 2, 3, 4, 5, 6, 0⟩ ⟨0, TouchCode_t.no_touch, ⟨33, 44⟩⟩
        TouchCode_t.touch 100 200 true).1 = TouchCode_t.no_cal ∧
    (TouchPanelReadable ⟨1, 2, 3, 4, 5, 6, 0⟩ ⟨0, TouchCode_t.no_touch, ⟨33, 44⟩⟩
        TouchCode_t.touch 100 200 true).2.1.coordinates = ⟨33, 44⟩ :=
  (C4_divider_zero_no_cal ⟨1, 2, 3, 4, 5, 6, 0⟩ ⟨0, TouchCode_t.no_touch, ⟨33, 44⟩⟩
      TouchCode_t.touch 100 200 (by decide)).1 rfl

/-- C5: the stored `Divider` always equals
`(Xs0-Xs2)*(Ys1-Ys2) - (Xs1-Xs2)*(Ys0-Ys2)`, the solver fails with
`bad_parameter` exactly when that value is 0, and in that case the six
numerator coefficients keep their previous values (no silently-wrong matrix
is stored: the result is explicitly marked invalid by `Divider = 0`). -/
theorem C5_divider_formula_iff_error (d0 d1 d2 s0 s1 s2 : point_t)
    (tp : tpMatrix_t) (ts : TouchCode_t) :
    ((TouchPanelComputeCalibration d0 d1 d2 s0 s1 s2 tp ts).2.1.Divider =
        (s0.x - s2.x) * (s1.y - s2.y) - (s1.x - s2.x) * (s0.y - s2.y)) ∧
    ((TouchPanelComputeCalibration d0 d1 d2 s0 s1 s2 tp ts).1 =
          RetCode_t.bad_parameter ↔
        (s0.x - s2.x) * (s1.y - s2.y) - (s1.x - s2.x) * (s0.y - s2.y) = 0) ∧
    ((s0.x - s2.x) * (s1.y - s2.y) - (s1.x - s2.x) * (s0.y - s2.y) = 0 →
      (TouchPanelComputeCalibration d0 d1 d2 s0 s1 s2 tp ts).2.1.An = tp.An ∧
      (TouchPanelComputeCalibration d0 d1 d2 s0 s1 s2 tp ts).2.1.Bn = tp.Bn ∧
      (TouchPanelComputeCalibration d0 d1 d2 s0 s1 s2 tp ts).2.1.Cn = tp.Cn ∧
      (TouchPanelComputeCalibration d0 d1 d2 s0 s1 s2 tp ts).2.1.Dn = tp.Dn ∧
      (TouchPanelComputeCalibration d0 d1 d2 s0 s1 s2 tp ts).2.1.En = tp.En ∧
      (TouchPanelComputeCalibration d0 d1 d2 s0 s1 s2 tp ts).2.1.Fn = tp.Fn) := by
  by_cases h : (s0.x - s2.x) * (s1.y - s2.y) - (s1.x - s2.x) * (s0.y - s2.y) = 0
  · simp [TouchPanelComputeCalibration, h]
  · simp [TouchPanelComputeCalibration, h]

/-- C5 witness: collinear raw points (0,0),(2,2),(4,4) make the solver fail
with `bad_parameter` while preserving the stored `An`. -/
theorem C5_witness :
    (TouchPanelComputeCalibration ⟨1, 2⟩ ⟨3, 4⟩ ⟨5, 6⟩ ⟨0, 0⟩ ⟨2, 2⟩ ⟨4, 4⟩
        ⟨9, 9, 9, 9, 9, 9, 9⟩ TouchCode_t.touch).1 = RetCode_t.bad_parameter ∧
    (TouchPanelComputeCalibration ⟨1, 2⟩ ⟨3, 4⟩ ⟨5, 6⟩ ⟨0, 0⟩ ⟨2, 2⟩ ⟨4, 4⟩
        ⟨9, 9, 9, 9, 9, 9, 9⟩ TouchCode_t.touch).2.1.An = 9 :=
  have H := C5_divider_formula_iff_error ⟨1, 2⟩ ⟨3, 4⟩ ⟨5, 6⟩ ⟨0, 0⟩ ⟨2, 2⟩ ⟨4, 4⟩
    ⟨9, 9, 9, 9, 9, 9, 9⟩ TouchCode_t.touch
  ⟨H.2.1.mpr (by decide), (H.2.2 (by decide)).1⟩

/-- C7: on a tick where the time since the last touch exceeds the 100 ms
(100000 µs) staleness threshold, `_TouchTicker` resets the sample counter to
0, moves `held` to `release` and any other state to `no_touch` (and resets
the timer); when the threshold is not exceeded the tick changes nothing. -/
theorem C7_ticker_staleness (s : ResTouchState) :
    (s.timeSinceTouch_us > 100000 →
      (_TouchTicker s).touchSample = 0 ∧
      (_TouchTicker s).timeSinceTouch_us = 0 ∧
      (s.touchState = TouchCode_t.held →
        (_TouchTicker s).touchState = TouchCode_t.release) ∧
      (s.touchState ≠ TouchCode_t.held →
        (_TouchTicker s).touchState = TouchCode_t.no_touch)) ∧
    (¬ s.timeSinceTouch_us > 100000 → _TouchTicker s = s) := by
  constructor
  · intro h
    exact ⟨by simp [_TouchTicker, h], by simp [_TouchTicker, h],
      fun hh => by simp [_TouchTicker, h, hh],
      fun hh => by simp [_TouchTicker, h, hh]⟩
  · intro h
    simp [_TouchTicker, h]

/-- C7 witness: a stale `held` state (200000 µs since last touch) moves to
`release` with the sample counter cleared. -/
theorem C7_witness :
    (_TouchTicker ⟨5, TouchCode_t.held, 200000⟩).touchState = TouchCode_t.release ∧
    (_TouchTicker ⟨5, TouchCode_t.held, 200000⟩).touchSample = 0 :=
  have H := (C7_ticker_staleness ⟨5, TouchCode_t.held, 200000⟩).1 (by decide)
  ⟨H.2.2.1 rfl, H.1⟩

/-- C10: the channel accessors clamp an out-of-range channel to 0 and return
channel 0's data, and the index actually used to access `touchInfo` is
always 0 or strictly below `TouchChannels()`. -/
theorem C10_channel_clamp (touchInfo : Nat → touchInfo_T)
    (useTouchPanel : WhichTP_T) (gslTouchPoints : Nat) (channel : Nat) :
    (channel ≥ TouchChannels useTouchPanel gslTouchPoints →
      TouchID touchInfo useTouchPanel gslTouchPoints channel = (touchInfo 0).touchID ∧
      TouchCode touchInfo useTouchPanel gslTouchPoints channel = (touchInfo 0).touchCode ∧
      TouchCoordinates touchInfo useTouchPanel gslTouchPoints channel =
        (touchInfo 0).coordinates) ∧
    (clampChannel useTouchPanel gslTouchPoints channel = 0 ∨
      clampChannel useTouchPanel gslTouchPoints channel <
        TouchChannels useTouchPanel gslTouchPoints) := by
  constructor
  · intro h
    simp [TouchID, TouchCode, TouchCoordinates, clampChannel, h]
  · by_cases h : channel ≥ TouchChannels useTouchPanel gslTouchPoints
    · left
      rw [clampChannel, if_pos h]
    · right
      rw [clampChannel, if_neg h]
      omega

/-- C10 witness: on the resistive panel (1 channel), channel 9 is clamped to
channel 0. -/
theorem C10_witness :
    TouchID (fun _ => ⟨7, TouchCode_t.touch, ⟨3, 4⟩⟩) WhichTP_T.TP_RES 0 9 = 7 ∧
    TouchCoordinates (fun _ => ⟨7, TouchCode_t.touch, ⟨3, 4⟩⟩) WhichTP_T.TP_RES 0 9 =
      ⟨3, 4⟩ :=
  have H := (C10_channel_clamp (fun _ => ⟨7, TouchCode_t.touch, ⟨3, 4⟩⟩)
    WhichTP_T.TP_RES 0 9).1 (by decide)
  ⟨H.1, H.2.2⟩

/-- C8: on a full 16-sample window, `TouchPanelA2DFiltered` sorts each buffer
ascending (the sorted buffer is an ascending permutation of the window) and
reports per axis the sum of the sorted values at indices
`[TPBUFSIZE/4 - 1, TPBUFSIZE - TPBUFSIZE/4)` = `[3, 12)` divided by
`TPBUFSIZE/2` = 8 (truncating). -/
theorem C8_trimmed_mean (xbuf ybuf : List Int) (ts : TouchCode_t)
    (_hx : xbuf.length = 16) (_hy : ybuf.length = 16) :
    (InsertionSort xbuf).Sorted (· ≤ ·) ∧ (InsertionSort xbuf).Perm xbuf ∧
    (InsertionSort ybuf).Sorted (· ≤ ·) ∧ (InsertionSort ybuf).Perm ybuf ∧
    (a2dFilteredComplete xbuf ybuf ts).1.1 =
      Int.tdiv (((InsertionSort xbuf).drop 3).take 9).sum 8 ∧
    (a2dFilteredComplete xbuf ybuf ts).1.2 =
      Int.tdiv (((InsertionSort ybuf).drop 3).take 9).sum 8 := by
  refine ⟨InsertionSort_sorted _, InsertionSort_perm _,
    InsertionSort_sorted _, InsertionSort_perm _, ?_, ?_⟩
  · simp only [a2dFilteredComplete]
    norm_num
    exact mul_two_tdiv_sixteen _
  · simp only [a2dFilteredComplete]
    norm_num
    exact mul_two_tdiv_sixteen _

/-- C8 witness: the filter on a concrete 16-sample window reports exactly the
hand-computable trimmed sum over sorted indices 3..11 divided by 8. -/
theorem C8_witness :
    (a2dFilteredComplete
        [10, 500, 13, 12, 11, 10, 9, 14, 15, 8, 7, 1000, 12, 13, 11, 10]
        [1, 2, 3, 4, 5, 6, 7, 8, 9, 10, 11, 12, 13, 14, 15, 16]
        TouchCode_t.no_touch).1.1 =
      Int.tdiv (((InsertionSort
        [10, 500, 13, 12, 11, 10, 9, 14, 15, 8, 7, 1000, 12, 13, 11, 10]).drop 3).take
          9).sum 8 :=
  (C8_trimmed_mean
    [10, 500, 13, 12, 11, 10, 9, 14, 15, 8, 7, 1000, 12, 13, 11, 10]
    [1, 2, 3, 4, 5, 6, 7, 8, 9, 10, 11, 12, 13, 14, 15, 16]
    TouchCode_t.no_touch (by decide) (by decide)).2.2.2.2.1

/-- The affine numerator identity makes the truncating division exact, so the
round-trip error is at most 1. -/
theorem tdiv_affine_exact (A B C D xd xs ys : Int) (hD : D ≠ 0)
    (hid : A * xs + B * ys + C = xd * D) :
    |Int.tdiv (A * xs + B * ys + C) D - xd| ≤ 1 := by
  rw [hid, Int.mul_tdiv_cancel _ hD]
  simp

/-- C9: for three point pairs whose raw points are non-collinear
(`computeDivider ≠ 0`), `TouchPanelComputeCalibration` succeeds and applying
the integer affine map (`getDisplayPoint`, C's truncating division) to each
of the three raw points reproduces the corresponding display point to within
±1 per coordinate. -/
theorem C9_solve_apply_roundtrip (d0 d1 d2 s0 s1 s2 : point_t)
    (tp : tpMatrix_t) (ts : TouchCode_t)
    (h : computeDivider s0 s1 s2 ≠ 0) :
    (TouchPanelComputeCalibration d0 d1 d2 s0 s1 s2 tp ts).1 = RetCode_t.noerror ∧
    |(getDisplayPoint (TouchPanelComputeCalibration d0 d1 d2 s0 s1 s2 tp ts).2.1
        s0.x s0.y).x - d0.x| ≤ 1 ∧
    |(getDisplayPoint (TouchPanelComputeCalibration d0 d1 d2 s0 s1 s2 tp ts).2.1
        s0.x s0.y).y - d0.y| ≤ 1 ∧
    |(getDisplayPoint (TouchPanelComputeCalibration d0 d1 d2 s0 s1 s2 tp ts).2.1
        s1.x s1.y).x - d1.x| ≤ 1 ∧
    |(getDisplayPoint (TouchPanelComputeCalibration d0 d1 d2 s0 s1 s2 tp ts).2.1
        s1.x s1.y).y - d1.y| ≤ 1 ∧
    |(getDisplayPoint (TouchPanelComputeCalibration d0 d1 d2 s0 s1 s2 tp ts).2.1
        s2.x s2.y).x - d2.x| ≤ 1 ∧
    |(getDisplayPoint (TouchPanelComputeCalibration d0 d1 d2 s0 s1 s2 tp ts).2.1
        s2.x s2.y).y - d2.y| ≤ 1 := by
  simp only [computeDivider] at h
  simp only [TouchPanelComputeCalibration, if_neg h, getDisplayPoint]
  refine ⟨by simp, ?_, ?_, ?_, ?_, ?_, ?_⟩ <;>
  exact tdiv_affine_exact _ _ _ _ _ _ _ h (by ring)

/-- C9 witness: a concrete non-collinear calibration succeds and maps the
first raw point back onto the first display point. -/
theorem C9_witness :
    (TouchPanelComputeCalibration ⟨50, 50⟩ ⟨430, 136⟩ ⟨240, 222⟩
        ⟨100, 200⟩ ⟨300, 250⟩ ⟨120, 400⟩ ⟨0, 0, 0, 0, 0, 0, 0⟩
        TouchCode_t.no_cal).1 = RetCode_t.noerror ∧
    |(getDisplayPoint (TouchPanelComputeCalibration ⟨50, 50⟩ ⟨430, 136⟩ ⟨240, 222⟩
        ⟨100, 200⟩ ⟨300, 250⟩ ⟨120, 400⟩ ⟨0, 0, 0, 0, 0, 0, 0⟩
        TouchCode_t.no_cal).2.1 100 200).x - 50| ≤ 1 :=
  have H := C9_solve_apply_roundtrip ⟨50, 50⟩ ⟨430, 136⟩ ⟨240, 222⟩
    ⟨100, 200⟩ ⟨300, 250⟩ ⟨120, 400⟩ ⟨0, 0, 0, 0, 0, 0, 0⟩
    TouchCode_t.no_cal (by decide)
  ⟨H.1, H.2.1⟩

/- ==================== GraphicsDisplayGIF.cpp: LZW decompressor ==================== -/

/-- Outcome of a GIF operation.  `ok`/`formatError` mirror the source's
`noerror`/`not_supported_format` returns.  `oobRead` marks a read of a
dictionary cell outside the currently initialized range (in C this reads
uninitialized or stale heap memory), `outOfInput` marks the bit reader
dereferencing past the input buffer, `badChain` marks a prev-chain walk that
exceeds its recorded length (in C an out-of-bounds write or an unbounded
loop), and `noFuel` marks exhaustion of the loop bound (unreachable for the
bounds used here). -/
inductive GifOutcome where
  | ok
  | formatError
  | oobRead
  | outOfInput
  | badChain
  | noFuel
deriving DecidableEq, Repr

/-- `dictionary_entry_t` (GraphicsDisplayGIF.cpp lines 62-66); the C sentinel
`prev == -1` is modelled as `none`. -/
structure dictionary_entry_t where
  byte : Nat
  prev : Option Nat
  len : Nat
deriving DecidableEq, Repr

/-- The LZW dictionary: cell index to entry, `none` for cells that have not
been initialized by the decoder (in C: allocated but unwritten, or stale
after a clear-code reinitialization). -/
def GifDict : Type := Nat → Option dictionary_entry_t

/-- Identity initialization of the first `2^codeLength` dictionary cells
(GraphicsDisplayGIF.cpp lines 144-149 and 174-179): `byte = index`,
`prev = -1`, `len = 1`.  Cells above (including the clear/stop slots) are
uninitialized. -/
def initDict (codeLength : Nat) : GifDict := fun i =>
  if i < 2 ^ codeLength then some ⟨i, none, 1⟩ else none

/-- The local state of `uncompress_gif` (GraphicsDisplayGIF.cpp lines
117-242): current code width, the initial code width (`reset_code_length`),
the dictionary and its next free index (`dictionary_ind`), the previous code
(`prev`, `-1` = `none`), the remaining input bytes with the bit cursor
(`mask = 1 << maskBit`), and the bytes written to `out` so far. -/
structure LzwState where
  codeLength : Nat
  resetCodeLength : Nat
  dict : GifDict
  dictInd : Nat
  prev : Option Nat
  input : List Nat
  maskBit : Nat
  out : List Nat

/-- The bit reader of `uncompress_gif` (lines 156-169): reads `n` bits
LSB-first, bit `i` of the code coming from the current byte's bit `maskBit`;
the byte is consumed when the mask wraps.  `none` when the input is
exhausted mid-code (in C the loop dereferences past the input buffer). -/
def readBitsAux : Nat → Nat → List Nat → Nat → Nat → Option (Nat × List Nat × Nat)
  | 0, _, input, maskBit, code => some (code, input, maskBit)
  | n + 1, i, input, maskBit, code =>
    match input with
    | [] => none
    | b :: rest =>
      let bit := (b >>> maskBit) &&& 1
      let code' := code ||| (bit <<< i)
      if maskBit = 7 then readBitsAux n (i + 1) rest 0 code'
      else readBitsAux n (i + 1) (b :: rest) (maskBit + 1) code'

/-- Read one `codeLength + 1`-bit code (the source always reads one more bit
than `code_length`). -/
def readCode (codeLength : Nat) (input : List Nat) (maskBit : Nat) :
    Option (Nat × List Nat × Nat) :=
  readBitsAux (codeLength + 1) 0 input maskBit 0

/-- The prev-chain walk to the root byte (lines 200-213):
`while (dictionary[ptr].prev != -1) ptr = dictionary[ptr].prev` then take
`dictionary[ptr].byte`.  Fuel bounds the walk (a chain longer than the
dictionary is cyclic, which in C loops forever). -/
def rootByte (dict : GifDict) : Nat → Nat → Except GifOutcome Nat
  | 0, _ => .error .badChain
  | fuel + 1, ptr =>
    match dict ptr with
    | none => .error .oobRead
    | some e =>
      match e.prev with
      | none => .ok e.byte
      | some p => rootByte dict fuel p

/-- The backwards copy of a dictionary entry into the output (lines
226-238): the chain is walked from `code` to its root, each entry's byte
written at position `len - 1`; collecting the bytes by prepending yields the
same forward order.  An entry whose `prev` points to itself is the source's
explicit corruption error.  Fuel is the recorded `len` of the entry (under
the decoder's invariant the chain is exactly that long; a longer chain in C
writes out of bounds). -/
def expandCode (dict : GifDict) : Nat → Nat → List Nat → Except GifOutcome (List Nat)
  | 0, _, _ => .error .badChain
  | fuel + 1, code, acc =>
    match dict code with
    | none => .error .oobRead
    | some e =>
      match e.prev with
      | none => .ok (e.byte :: acc)
      | some p =>
        if p = code then .error .formatError
        else expandCode dict fuel p (e.byte :: acc)

/-- The state produced by the clear-code branch (lines 170-183): code width
back to the initial value, dictionary reinitialized to the identity on
`0..2^codeLength-1`, `dictionary_ind` just past the stop code, `prev`
cleared.  (The C `realloc` keeps stale cells above `2^codeLength`; they are
outside the freshly initialized dictionary, and the model marks them
uninitialized so any later access is flagged as an out-of-range read.) -/
def lzwClear (s : LzwState) (input' : List Nat) (mb' : Nat) : LzwState :=
  { s with codeLength := s.resetCodeLength
           dict := initDict s.resetCodeLength
           dictInd := 2 ^ s.resetCodeLength + 2
           prev := none
           input := input'
           maskBit := mb' }

/-- Result of processing one code: continue with a new state, or stop with
an outcome. -/
inductive LzwStep where
  | next (s : LzwState)
  | halt (r : GifOutcome)

/-- Processing of one decoded `code` by the body of the `while` loop of
`uncompress_gif` (lines 170-238).  `input'`/`mb'` are the input cursor after
the bit reads.  `clear_code = 1 << code_length` and `stop_code = clear_code
+ 1` are fixed from the initial code length.  The `code > dictionary_ind`
format check is performed only when a previous code exists and the code
width is below 12, exactly as in the source. -/
def lzwStep (s : LzwState) (code : Nat) (input' : List Nat) (mb' : Nat) : LzwStep :=
  if code = 2 ^ s.resetCodeLength then
    .next (lzwClear s input' mb')
  else if code = 2 ^ s.resetCodeLength + 1 then
    if input'.length > 1 then .halt .formatError else .halt .ok
  else
    let afterUpdate : Except GifOutcome LzwState :=
      match s.prev with
      | none => .ok s
      | some prevC =>
        if s.codeLength < 12 then
          if code > s.dictInd then .error .formatError
          else
            match rootByte s.dict (s.dictInd + 1)
                (if code = s.dictInd then prevC else code) with
            | .error e => .error e
            | .ok b =>
              match s.dict prevC with
              | none => .error .oobRead
              | some pe =>
                let dict' : GifDict := fun i =>
                  if i = s.dictInd then some ⟨b, some prevC, pe.len + 1⟩
                  else s.dict i
                let ind' := s.dictInd + 1
                if ind' = 2 ^ (s.codeLength + 1) ∧ s.codeLength < 11 then
                  .ok { s with dict := dict', dictInd := ind',
                               codeLength := s.codeLength + 1 }
                else
                  .ok { s with dict := dict', dictInd := ind' }
        else .ok s
    match afterUpdate with
    | .error e => .halt e
    | .ok s1 =>
      match s1.dict code with
      | none => .halt .oobRead
      | some e =>
        match expandCode s1.dict e.len code [] with
        | .error err => .halt err
        | .ok bytes =>
          .next { s1 with prev := some code, input := input', maskBit := mb',
                          out := s1.out ++ bytes }

/-- The `while (input_length)` loop of `uncompress_gif`: read one code, then
process it.  When the input empties at a code boundary the source falls out
of the loop and returns `noerror`. -/
def lzwLoop : Nat → LzwState → GifOutcome × List Nat
  | 0, s => (.noFuel, s.out)
  | fuel + 1, s =>
    match s.input with
    | [] => (.ok, s.out)
    | _ :: _ =>
      match readCode s.codeLength s.input s.maskBit with
      | none => (.outOfInput, s.out)
      | some (code, input', mb') =>
        match lzwStep s code input' mb' with
        | .next s' => lzwLoop fuel s'
        | .halt r => (r, s.out)

/-- `uncompress_gif` (lines 117-242): initial state has the identity
dictionary on `0..2^code_length-1`, `dictionary_ind = 2^code_length + 2`
(one past the stop code), no previous code, and the bit cursor at bit 0 of
the first input byte.  Each loop iteration consumes at least one bit, so
`8 * |input| + 1` iterations are never exhausted. -/
def uncompress_gif (code_length : Nat) (input : List Nat) : GifOutcome × List Nat :=
  lzwLoop (8 * input.length + 1)
    { codeLength := code_length
      resetCodeLength := code_length
      dict := initDict code_length
      dictInd := 2 ^ code_length + 2
      prev := none
      input := input
      maskBit := 0
      out := [] }

/- ==================== GraphicsDisplayGIF.cpp: structure parser ==================== -/

/-- Little-endian decode of a `uint16_t` read byte-wise by `fread` into the
packed GIF structs. -/
def u16le (lo hi : Nat) : Nat := lo + 256 * hi

/-- `gif_screen_descriptor_t` (GraphicsDisplayGIF.h): 7 packed bytes. -/
structure gif_screen_descriptor_t where
  width : Nat
  height : Nat
  fields : Nat
  background_color_index : Nat
  pixel_aspect_ratio : Nat
deriving DecidableEq, Repr

/-- `gif_image_descriptor_t` (GraphicsDisplayGIF.h): 9 packed bytes. -/
structure gif_image_descriptor_t where
  image_left_position : Nat
  image_top_position : Nat
  image_width : Nat
  image_height : Nat
  fields : Nat
deriving DecidableEq, Repr

/-- `read_filesystem_bytes` over the byte-stream model: `n` bytes are taken
from the front; a short read (stream shorter than `n`) is `none`. -/
def readBytes (n : Nat) (s : List Nat) : Option (List Nat × List Nat) :=
  if s.length < n then none else some (s.take n, s.drop n)

/-- `read_gif_sub_blocks` (GraphicsDisplayGIF.cpp lines 251-280): chained
data sub-blocks, each prefixed by a 1-byte length, terminated by a 0 length.
Returns the concatenated data and the remaining stream; a short read returns
`none` (the source's `-1`) with the stream at end-of-file. -/
def read_gif_sub_blocks (s : List Nat) : Option (List Nat) × List Nat :=
  match s with
  | [] => (none, [])
  | bs :: rest =>
    if bs = 0 then (some [], rest)
    else if rest.length < bs then (none, [])
    else
      match read_gif_sub_blocks (rest.drop bs) with
      | (some d, r) => (some (rest.take bs ++ d), r)
      | (none, r) => (none, r)
termination_by s.length
decreasing_by simp; omega

/-- The `RGB(r,g,b)` macro (DisplayDefs.h): 24-bit RGB reduced to the 16-bit
native color `((r<<8)&0xF800)|((g<<3)&0x07E0)|(b>>3)`. -/
def RGB (r g b : Nat) : Nat :=
  ((r <<< 8) &&& 0xF800) ||| ((g <<< 3) &&& 0x07E0) ||| (b >>> 3)

/-- `readColorTable` (GraphicsDisplayGIF.cpp lines 285-297): reads
`colorTableSize` RGB byte triples, packing each with `RGB`; a short read is
the source's `not_supported_format`, here `none`. -/
def readColorTable : Nat → List Nat → Option (List Nat × List Nat)
  | 0, s => some ([], s)
  | n + 1, s =>
    match s with
    | r :: g :: b :: rest =>
      match readColorTable n rest with
      | some (t, r') => some (RGB r g b :: t, r')
      | none => none
    | _ => none

/-- `process_gif_extension` (GraphicsDisplayGIF.cpp lines 360-409): reads the
2-byte extension sub-header, consumes the fixed body for the four recognized
extension codes (graphic control 0xF9: 4 bytes, application 0xFF: 11 bytes,
comment 0xFE: none, plain text 0x01: 12 bytes) and then drains the chained
data sub-blocks (whose failure the source ignores); any other extension code
hits the `default:` case and returns 0 *without* draining.  Returns the
source's `int` (0 = failure, 1 = processed) and the remaining stream. -/
def process_gif_extension (s : List Nat) : Nat × List Nat :=
  match s with
  | code :: _bsize :: rest =>
    if code = 0xF9 then
      match readBytes 4 rest with
      | none => (0, rest)
      | some (_, r2) => (1, (read_gif_sub_blocks r2).2)
    else if code = 0xFF then
      match readBytes 11 rest with
      | none => (0, rest)
      | some (_, r2) => (1, (read_gif_sub_blocks r2).2)
    else if code = 0xFE then
      (1, (read_gif_sub_blocks rest).2)
    else if code = 0x01 then
      match readBytes 12 rest with
      | none => (0, rest)
      | some (_, r2) => (1, (read_gif_sub_blocks r2).2)
    else (0, rest)
  | _ => (0, [])

/-- `GetGIFHeader` (GraphicsDisplayGIF.cpp lines 526-542): the 7-byte packed
logical screen descriptor; a short read is `none` (`not_supported_format`). -/
def GetGIFHeader (s : List Nat) :
    Option (gif_screen_descriptor_t × List Nat) :=
  match s with
  | b0 :: b1 :: b2 :: b3 :: b4 :: b5 :: b6 :: rest =>
    some ({ width := u16le b0 b1, height := u16le b2 b3, fields := b4,
            background_color_index := b5, pixel_aspect_ratio := b6 }, rest)
  | _ => none

/-- `readGIFImageDescriptor` (GraphicsDisplayGIF.cpp lines 299-325): the
9-byte packed image descriptor followed, when bit 7 of `fields` is set, by a
local color table of `2^((fields&7)+1)` entries. -/
def readGIFImageDescriptor (s : List Nat) :
    Option (gif_image_descriptor_t × Option (List Nat) × List Nat) :=
  match s with
  | b0 :: b1 :: b2 :: b3 :: b4 :: b5 :: b6 :: b7 :: b8 :: rest =>
    let d : gif_image_descriptor_t :=
      { image_left_position := u16le b0 b1, image_top_position := u16le b2 b3,
        image_width := u16le b4 b5, image_height := u16le b6 b7, fields := b8 }
    if b8 &&& 0x80 ≠ 0 then
      match readColorTable (2 ^ ((b8 &&& 0x07) + 1)) rest with
      | some (t, r2) => some (d, some t, r2)
      | none => none
    else some (d, none, rest)
  | _ => none

/-- `process_gif_image_descriptor` (GraphicsDisplayGIF.cpp lines 333-357):
reads the 1-byte LZW minimum code size, drains the compressed data
sub-blocks, and when more than 0 bytes were collected runs the
decompressor.  Allocation is modelled as infallible. -/
def process_gif_image_descriptor (_width _height : Nat) (s : List Nat) :
    GifOutcome × Option (List Nat) × List Nat :=
  match s with
  | [] => (.formatError, none, [])
  | lzw_code_size :: rest =>
    match read_gif_sub_blocks rest with
    | (some data, r2) =>
      if 0 < data.length then
        match uncompress_gif lzw_code_size data with
        | (.ok, out) => (.ok, some out, r2)
        | (e, _) => (e, none, r2)
      else (.formatError, none, r2)
    | (none, r2) => (.formatError, none, r2)

/-- One `pixelStream` write emitted by `_RenderGIF`: the window rectangle,
the count passed to `pixelStream` (the source passes the *screen*
width·height), and the color-mapped pixels.  A pixel is `none` when the C
code would read an uninitialized decoded byte or index outside the active
color table. -/
structure GifWrite where
  x : Int
  y : Int
  width : Nat
  height : Nat
  streamCount : Nat
  pixels : List (Option Nat)
deriving DecidableEq, Repr

/-- The color mapping loop of `_RenderGIF` (lines 454-457):
`cbmp[i] = active_color_table[uncompress_gifed_data[i]]` for
`i < width*height`. -/
def renderPixels (udata : List Nat) (act : Option (List Nat)) (n : Nat) :
    List (Option Nat) :=
  (List.range n).map fun i =>
    match udata[i]? with
    | some ci =>
      match act with
      | some t => t[ci]?
      | none => none
    | none => none

/-- The block loop of `_RenderGIF` (GraphicsDisplayGIF.cpp lines 435-503):
reads a tag byte and dispatches on image descriptor (0x2C), extension
introducer (0x21, fatal when `process_gif_extension` returns 0), trailer
(0x3B, success) or anything else (fatal).  Fuel bounds the iterations (each
consumes at least the tag byte). -/
def blockLoop (gct : Option (List Nat)) (sd : gif_screen_descriptor_t)
    (X Y : Int) : Nat → List Nat → List GifWrite → GifOutcome × List GifWrite
  | 0, _, acc => (.noFuel, acc)
  | fuel + 1, s, acc =>
    match s with
    | [] => (.formatError, acc)
    | bt :: rest =>
      if bt = 0x2C then
        match readGIFImageDescriptor rest with
        | none => (.formatError, acc)
        | some (idesc, lct, r2) =>
          match process_gif_image_descriptor idesc.image_width idesc.image_height r2 with
          | (.ok, some udata, r3) =>
            let act := match lct with
              | some t => some t
              | none => gct
            let w : GifWrite :=
              { x := X + (idesc.image_left_position : Int)
                y := Y + (idesc.image_top_position : Int)
                width := idesc.image_width
                height := idesc.image_height
                streamCount := sd.width * sd.height
                pixels := renderPixels udata act
                  (idesc.image_width * idesc.image_height) }
            blockLoop gct sd X Y fuel r3 (acc ++ [w])
          | (.ok, none, r3) => blockLoop gct sd X Y fuel r3 acc
          | (.formatError, _, _) => (.formatError, acc)
          | (e, _, _) => (e, acc)
      else if bt = 0x21 then
        match process_gif_extension rest with
        | (0, _) => (.formatError, acc)
        | (_, r2) => blockLoop gct sd X Y fuel r2 acc
      else if bt = 0x3B then (.ok, acc)
      else (.formatError, acc)

/-- `_RenderGIF` (GraphicsDisplayGIF.cpp lines 412-505) on the byte stream
following the already-verified `GIF89a` signature: screen descriptor,
optional global color table, then the block loop.  Output: the outcome and
the sequence of pixel-sink writes. -/
def _RenderGIF (X Y : Int) (s : List Nat) : GifOutcome × List GifWrite :=
  match GetGIFHeader s with
  | none => (.formatError, [])
  | some (sd, rest) =>
    if sd.fields &&& 0x80 ≠ 0 then
      match readColorTable (2 ^ ((sd.fields &&& 0x07) + 1)) rest with
      | none => (.formatError, [])
      | some (gct, rest2) => blockLoop (some gct) sd X Y (rest2.length + 1) rest2 []
    else blockLoop none sd X Y (rest.length + 1) rest []

/- ==================== Claim theorems: GIF decoder ==================== -/

/-- C1 counterexample: a GIF stream (after the signature) with a 1×1 screen
descriptor, no global color table, an extension introducer 0x21 with the
unrecognized extension code 0x02, and a trailer.  The claim says the parse
does not fail; in fact `_RenderGIF` returns `not_supported_format`
(`formatError`), emitting no writes. -/
theorem C1_counterexample :
    _RenderGIF 0 0 [1, 0, 1, 0, 0, 0, 0, 0x21, 0x02, 0x00, 0x3B] =
      (GifOutcome.formatError, []) ∧
    GifOutcome.formatError ≠ GifOutcome.ok := by
  decide

/-- C1 (amended): an extension code other than 0xF9/0xFF/0xFE/0x01 is fatal:
`process_gif_extension` returns 0 without draining the sub-blocks, and the
block loop of `_RenderGIF` returns `not_supported_format` instead of
continuing. -/
theorem C1_amended_unrecognized_extension_fatal (c bsize : Nat) (rest : List Nat)
    (gct : Option (List Nat)) (sd : gif_screen_descriptor_t) (X Y : Int)
    (fuel : Nat) (acc : List GifWrite)
    (h1 : c ≠ 0xF9) (h2 : c ≠ 0xFF) (h3 : c ≠ 0xFE) (h4 : c ≠ 0x01) :
    process_gif_extension (c :: bsize :: rest) = (0, rest) ∧
    blockLoop gct sd X Y (fuel + 1) (0x21 :: c :: bsize :: rest) acc =
      (GifOutcome.formatError, acc) := by
  have hp : process_gif_extension (c :: bsize :: rest) = (0, rest) := by
    simp [process_gif_extension, h1, h2, h3, h4]
  refine ⟨hp, ?_⟩
  simp [blockLoop, hp]

/-- C1 witness: the amended theorem at extension code 0x00 followed by a
trailer. -/
theorem C1_witness :
    blockLoop none ⟨1, 1, 0, 0, 0⟩ 0 0 3 [0x21, 0x00, 0x00, 0x3B] [] =
      (GifOutcome.formatError, []) :=
  (C1_amended_unrecognized_extension_fatal 0 0 [0x3B] none ⟨1, 1, 0, 0, 0⟩ 0 0 2 []
    (by decide) (by decide) (by decide) (by decide)).2

/-- C3: evaluation at the failing input.  With initial code length 2 the
dictionary's initialized range is `0..3` and `dictionary_ind = 6`; the
single input byte 0x07 decodes to the first code 7, which exceeds
`dictionary_ind` and is neither clear (4) nor stop (5).  Because no previous
code exists, the source skips its `code > dictionary_ind` check and reads
the uninitialized cell `dictionary[7]` instead of returning the format
error the claim requires. -/
theorem C3_uninitialized_read_eval :
    uncompress_gif 2 [0x07] = (GifOutcome.oobRead, []) ∧
    GifOutcome.oobRead ≠ GifOutcome.formatError := by
  decide

/-- C6: processing the clear code (`1 << reset_code_length`) always
continues decoding with the state produced by the clear branch: code width
back to the initial length, dictionary cells `0..2^codeWidth-1` identity
(`byte = index`, `prev = none`, `len = 1`), the next free index one past the
stop code, and the previous-code tracking cleared. -/
theorem C6_clear_code_resets (s : LzwState) (input' : List Nat) (mb' : Nat) :
    lzwStep s (2 ^ s.resetCodeLength) input' mb' =
      LzwStep.next (lzwClear s input' mb') ∧
    (lzwClear s input' mb').codeLength = s.resetCodeLength ∧
    (∀ i, i < 2 ^ s.resetCodeLength →
      (lzwClear s input' mb').dict i = some ⟨i, none, 1⟩) ∧
    (lzwClear s input' mb').dictInd = (2 ^ s.resetCodeLength + 1) + 1 ∧
    (lzwClear s input' mb').prev = none := by
  refine ⟨?_, rfl, ?_, rfl, rfl⟩
  · simp [lzwStep]
  · intro i hi
    simp [lzwClear, initDict, hi]

/-- C6 witness: a state mid-decode (code width 5, some previous code)
receiving the clear code 4 resets to the identity dictionary. -/
theorem C6_witness :
    (lzwClear ⟨5, 2, initDict 2, 9, some 3, [0xAA], 4, [1, 2]⟩ [0xBB] 6).dict 0 =
      some ⟨0, none, 1⟩ ∧
    lzwStep ⟨5, 2, initDict 2, 9, some 3, [0xAA], 4, [1, 2]⟩ 4 [0xBB] 6 =
      LzwStep.next (lzwClear ⟨5, 2, initDict 2, 9, some 3, [0xAA], 4, [1, 2]⟩ [0xBB] 6) :=
  have H := C6_clear_code_resets ⟨5, 2, initDict 2, 9, some 3, [0xAA], 4, [1, 2]⟩ [0xBB] 6
  ⟨H.2.2.1 0 (by decide), H.1⟩
